import Mathlib

/-!
Shallow embedding of the `suchbar` crate: a translator from a compact
end-user search language to a sanitized SQL WHERE / ORDER BY fragment.

The embedding follows the Rust sources file by file:
`comp_op.rs`, `db_field.rs`, `error.rs`, `sql_term.rs`, `suchbar.rs`.
Rust `String` is modelled as Lean `String` (a list of code points);
where Rust counts bytes (`String::len`) we count UTF-8 bytes explicitly.
The external `timewarp` date helper and the `pest` parse trees are
interfaces, modelled from the spec (see the doc comments below).
-/

/-- From the external `timewarp` interface: endpoint selector for ranges. -/
inductive Direction where
  | From
  | To
deriving DecidableEq

/-- `comp_op.rs`: the six comparators. -/
inductive CompOp where
  | Equal
  | NotEqual
  | Gt
  | Lt
  | Gte
  | Lte
deriving DecidableEq, BEq

/-- `error.rs`: error kinds. -/
inductive SuchError where
  | ParseError (msg : String)
  | LikeNotPossible
  | Denied
deriving DecidableEq

/-- `comp_op.rs` `Display for CompOp`. -/
def CompOp.display : CompOp → String
  | .Equal => "="
  | .Gt => ">"
  | .Gte => ">="
  | .Lt => "<"
  | .Lte => "<="
  | .NotEqual => "!="

/-- `comp_op.rs` `FromStr for CompOp`. -/
def CompOp.from_str (s : String) : Except SuchError CompOp :=
  match s with
  | "=" | "==" => .ok .Equal
  | ">=" | "=>" => .ok .Gte
  | ">" => .ok .Gt
  | "<=" | "=<" => .ok .Lte
  | "<" => .ok .Lt
  | "!=" | "=!" => .ok .NotEqual
  | _ => .error (.ParseError ("'" ++ s ++ "' is no comparator!"))

/-- `comp_op.rs` `Not for CompOp`. -/
def CompOp.notOp : CompOp → CompOp
  | .Equal => .NotEqual
  | .NotEqual => .Equal
  | .Gt => .Lte
  | .Gte => .Lt
  | .Lte => .Gt
  | .Lt => .Gte

/-- `db_field.rs`: the SQL type of a field.  `INTEGER`'s bounds are `u64`
in Rust; values above `2 ^ 64 - 1` fail to parse there, which
`parse_u64` below reproduces. -/
inductive DbType where
  | VARCHAR (maxLen : Nat)
  | TEXT
  | INTEGER (min max : Nat)
  | NUMERIC (precision scale : Nat)
  | BOOL
  | DATE
  | TIMESTAMP
deriving DecidableEq

/-- `db_field.rs` `DbField`.  The Rust field `alias` is a reserved word
in Lean and is spelled `aliases` here. -/
structure DbField where
  db_name : String
  db_type : DbType
  permission : String
  aliases : List String
deriving DecidableEq

/-- `db_field.rs` `SortField`. -/
structure SortField where
  desc : Bool
  field : DbField
deriving DecidableEq

/-- `SortField::to_sql`. -/
def SortField.to_sql (s : SortField) : String :=
  s.field.db_name ++ (if s.desc then " DESC" else "")

/-- Rust `str::replace` for the single-character patterns the source
uses (`','` and `'%'`): every occurrence of `c` becomes `r`. -/
def replaceChar (s : String) (c : Char) (r : String) : String :=
  String.join (s.data.map (fun a => if a = c then r else String.singleton a))

/-- Rust `str::trim`: strip leading and trailing whitespace. -/
def rustTrim (s : String) : String :=
  String.mk (((s.data.dropWhile Char.isWhitespace).reverse.dropWhile Char.isWhitespace).reverse)

/-- Rust `str::contains(char)`. -/
def containsChar (s : String) (c : Char) : Bool :=
  s.data.any (fun a => a = c)

/-- Rust `str::to_ascii_lowercase`. -/
def asciiLower (s : String) : String :=
  String.mk (s.data.map (fun c => if 'A' ≤ c ∧ c ≤ 'Z' then Char.ofNat (c.toNat + 32) else c))

/-- Rust `String::len`: the UTF-8 byte length, not the code-point count. -/
def rustLen (s : String) : Nat :=
  s.data.foldl (fun n c => n + c.utf8Size) 0

/-- Rust `u64::from_str`: optional leading `+`, then one or more ASCII
digits, value below `2 ^ 64`. -/
def parse_u64 (s : String) : Option Nat :=
  let cs := match s.data with
    | '+' :: rest => rest
    | cs => cs
  if cs = [] ∨ cs.any (fun c => ¬ c.isDigit) then none
  else
    let v := cs.foldl (fun n c => n * 10 + (c.toNat - 48)) 0
    if v < 2 ^ 64 then some v else none

/-- Splits a leading run of ASCII digits off a character list. -/
def splitDigits : List Char → List Char × List Char
  | [] => ([], [])
  | c :: r =>
    if c.isDigit then
      let (a, b) := splitDigits r
      (c :: a, b)
    else ([], c :: r)

/-- A run of one or more ASCII digits. -/
def digitRun (l : List Char) : Bool :=
  !l.isEmpty && l.all Char.isDigit

/-- An optional exponent part of a Rust float literal. -/
def expPartOk (l : List Char) : Bool :=
  match l with
  | [] => true
  | 'e' :: r | 'E' :: r =>
    match r with
    | '+' :: r2 | '-' :: r2 => digitRun r2
    | r2 => digitRun r2
  | _ => false

/-- Whether Rust `f64::from_str` accepts `s`: optional sign, then
`inf` / `infinity` / `nan` (case-insensitive) or a decimal significand
with optional exponent.  Only acceptance matters to the code (the parsed
value is discarded), so no floating-point arithmetic is modelled. -/
def f64_from_str_ok (s : String) : Bool :=
  let cs := match s.data with
    | '+' :: rest => rest
    | '-' :: rest => rest
    | cs => cs
  let lower := String.mk (cs.map (fun c => if 'A' ≤ c ∧ c ≤ 'Z' then Char.ofNat (c.toNat + 32) else c))
  if lower = "inf" ∨ lower = "infinity" ∨ lower = "nan" then true
  else
    let (intPart, rest1) := splitDigits cs
    match rest1 with
    | '.' :: r =>
      let (fracPart, rest2) := splitDigits r
      (!intPart.isEmpty || !fracPart.isEmpty) && expPartOk rest2
    | r => !intPart.isEmpty && expPartOk r

/-- `db_field.rs` `try_bool`. -/
def try_bool (str : String) : Except SuchError Bool :=
  let str := asciiLower (rustTrim str)
  match str with
  | "1" | "true" | "wahr" | "yes" | "ja" | "y" | "j" | "t" | "w" => .ok true
  | "0" | "false" | "falsch" | "unwahr" | "no" | "not" | "nein" | "n" | "f" => .ok false
  | _ => .error (.ParseError ("No boolean value: '" ++ str ++ "'"))

/-- `db_field.rs` `timestamp_checker`. -/
def timestamp_checker (str : String) : Except SuchError String :=
  if str.data.any (fun a =>
      if a = '-' ∨ a = ':' ∨ a = ' ' ∨ a = '%' then false else ¬ a.isDigit) then
    .error (.ParseError "No date")
  else if rustLen str = 10 then
    .ok (str ++ " 00:00:00")
  else
    .ok str

/-- Rust `Debug` rendering of `DbType`, used in one error message. -/
def DbType.debugStr : DbType → String
  | .VARCHAR a => "VARCHAR(" ++ toString a ++ ")"
  | .TEXT => "TEXT"
  | .INTEGER a b => "INTEGER(" ++ toString a ++ ", " ++ toString b ++ ")"
  | .NUMERIC a b => "NUMERIC(" ++ toString a ++ ", " ++ toString b ++ ")"
  | .BOOL => "BOOL"
  | .DATE => "DATE"
  | .TIMESTAMP => "TIMESTAMP"

/-- `db_field.rs` `DbType::checker`: per-type check of the escaped value. -/
def DbType.checker (t : DbType) (val : String) : Except SuchError String :=
  match t with
  | .VARCHAR a =>
    if rustLen val > a then .error (.ParseError ("Value: '" ++ val ++ "' to long"))
    else .ok val
  | .TEXT => .ok val
  | .TIMESTAMP => timestamp_checker val
  | .INTEGER min max =>
    let c_val := replaceChar val ',' "."
    match parse_u64 (replaceChar c_val '%' "") with
    | some d =>
      if d ≤ max ∧ min ≤ d then .ok c_val
      else .error (.ParseError ("No Integer value '" ++ val ++ "'"))
    | none => .error (.ParseError ("No Integer value '" ++ val ++ "'"))
  | .NUMERIC len _ =>
    let c_val := replaceChar val ',' "."
    let number := replaceChar c_val '%' ""
    if f64_from_str_ok number ∧ rustLen number < len + 1 then .ok c_val
    else .error (.ParseError ("No Numeric value '" ++ val ++ "'"))
  | _ => .error (.ParseError ("Don't know how to handle: " ++ t.debugStr ++ " = '" ++ val ++ "'"))

/-- `db_field.rs` `sql_safe`'s per-character escaper closure. -/
def escaper (c : Char) : String :=
  if c = '?' then "_"
  else if c = '*' then "%"
  else if c = '\'' then "''"
  else if c = '_' ∨ c = '%' then "\\" ++ String.singleton c
  else String.singleton c

/-- The character-by-character escape of a character list. -/
def escapeList : List Char → String
  | [] => ""
  | c :: cs => escaper c ++ escapeList cs

/-- `val.chars().map(escaper).collect::<String>()`. -/
def escape (val : String) : String :=
  escapeList val.data

/-- `db_field.rs` `DbType::sql_safe`: escape then type-check. -/
def DbType.sql_safe (t : DbType) (val : String) : Except SuchError String :=
  t.checker (escape val)

/-- Modelled from the spec: the external `timewarp` date helper interface
(`date_matcher(today, direction, token)` followed by `Range::start()`,
already rendered as `yyyy-mm-dd`).  Its crate is out of scope; every
theorem below holds for any such helper. -/
structure DateEnv where
  date_matcher : Direction → String → Except SuchError String

/-- `db_field.rs` `DbField::try_sql_eq`. -/
def DbField.try_sql_eq (env : DateEnv) (f : DbField) (eq : CompOp) (val : String)
    (d : Direction) : Except SuchError String :=
  match f.db_type with
  | .BOOL =>
    match try_bool val with
    | .ok b =>
      .ok (f.db_name ++ (if b == (eq == CompOp.Equal) then "" else "=false"))
    | .error e => .error e
  | .NUMERIC _ _ | .INTEGER _ _ =>
    match f.db_type.sql_safe val with
    | .ok s => .ok (f.db_name ++ eq.display ++ s)
    | .error e => .error e
  | .DATE =>
    match env.date_matcher d val with
    | .ok date => .ok (f.db_name ++ eq.display ++ "'" ++ date ++ "'")
    | .error e => .error e
  | _ =>
    match f.db_type.sql_safe val with
    | .ok s => .ok (f.db_name ++ eq.display ++ "'" ++ s ++ "'")
    | .error e => .error e

/-- `db_field.rs` `DbField::try_sql_like`. -/
def DbField.try_sql_like (f : DbField) (val : String) : Except SuchError String :=
  match f.db_type with
  | .VARCHAR _ | .TEXT =>
    match f.db_type.sql_safe val with
    | .ok s => .ok (f.db_name ++ " LIKE '" ++ s ++ "'")
    | .error e => .error e
  | .DATE | .TIMESTAMP => .error .LikeNotPossible
  | _ =>
    match f.db_type.sql_safe val with
    | .ok s => .ok (f.db_name ++ "::TEXT LIKE '" ++ s ++ "'")
    | .error e => .error e

/-- `db_field.rs` `DbField::is_text`. -/
def DbField.is_text (f : DbField) : Bool :=
  match f.db_type with
  | .TEXT | .VARCHAR _ => true
  | _ => false

/-- `sql_term.rs` `SQLTerm`: the boolean IR tree. -/
inductive SQLTerm where
  | AND : List SQLTerm → SQLTerm
  | OR : List SQLTerm → SQLTerm
  | NOT : SQLTerm → SQLTerm
  | VALUE : DbField → CompOp → Direction → String → SQLTerm
  | LIKE : DbField → String → SQLTerm
  | DENIED : SQLTerm

/-- `sql_term.rs` `val_sql`. -/
def val_sql (env : DateEnv) (f : DbField) (eq : CompOp) (v : String)
    (d : Direction) : Except SuchError String :=
  if containsChar v '*' then f.try_sql_like v else f.try_sql_eq env eq v d

/-- `sql_term.rs` `explode_sql`, applied to the already-filtered list of
children that emitted successfully. -/
def explode_sql (v : List String) (sep : String) : Except SuchError String :=
  match v with
  | [] => .error (.ParseError "Empty SQLTerm!")
  | [s] => .ok s
  | _ => .ok ("( " ++ String.intercalate sep v ++ " )")

mutual

/-- `sql_term.rs` `SQLTerm::to_sql`. -/
def SQLTerm.to_sql (env : DateEnv) : SQLTerm → Except SuchError String
  | .OR vec => explode_sql (to_sql_ok env vec) " OR "
  | .AND vec => explode_sql (to_sql_ok env vec) " AND "
  | .NOT (.NOT inner) => inner.to_sql env
  | .NOT val =>
    match val.to_sql env with
    | .ok s => .ok ("NOT " ++ s)
    | .error e => .error e
  | .VALUE f eq d v => val_sql env f eq v d
  | .LIKE f v => f.try_sql_like v
  | .DENIED => .error .Denied
termination_by structural t => t

/-- The `filter_map(|op| op.to_sql().ok())` step of `explode_sql`:
children whose emission fails are dropped. -/
def to_sql_ok (env : DateEnv) : List SQLTerm → List String
  | [] => []
  | t :: rest =>
    match t.to_sql env with
    | .ok s => s :: to_sql_ok env rest
    | .error _ => to_sql_ok env rest
termination_by structural l => l

end

mutual

/-- The `DbField`s referenced by the `VALUE` and `LIKE` leaves of a term. -/
def SQLTerm.leafFields : SQLTerm → List DbField
  | .AND v => leafFieldsList v
  | .OR v => leafFieldsList v
  | .NOT t => t.leafFields
  | .VALUE f _ _ _ => [f]
  | .LIKE f _ => [f]
  | .DENIED => []

/-- `leafFields` over a list of children. -/
def leafFieldsList : List SQLTerm → List DbField
  | [] => []
  | t :: rest => t.leafFields ++ leafFieldsList rest

end

/-- `suchbar.rs` `SuchOptions`. -/
structure SuchOptions where
  like_in_numerics : Bool
deriving DecidableEq

/-- `suchbar.rs` `Suchbar`: the schema plus options. -/
structure Suchbar where
  db_fields : List DbField
  options : SuchOptions

/-- `suchbar.rs` `Suchbar::choose_field`. -/
def Suchbar.choose_field (sb : Suchbar) (needle : String) : Option DbField :=
  let needle := asciiLower needle
  sb.db_fields.find? (fun sf => sf.aliases.any (fun s => s == needle))

/-- `suchbar.rs` `Suchbar::choose_field_vec`. -/
def Suchbar.choose_field_vec (sb : Suchbar) (needle : String) : List DbField :=
  match sb.choose_field needle with
  | some f => [f]
  | none => sb.db_fields

/-- Modelled from the spec: the `pest` grammar file `suchbar.pest` is not
among the sources, so the pairs the walker receives inside a `term` rule
are modelled as tokens.  `value` and `from_to` carry the result of
`parse_value` (an `Option String`), per §4.3 of the spec. -/
inductive TermTok where
  | starts_with (s : String)
  | ends_with (s : String)
  | from_to (v : Option String)
  | value (v : Option String)
  | date (s : String)

/-- The mutable locals of the loop at the head of `parse_term`. -/
structure TermAcc where
  value : String := ""
  like_ending : Bool := false
  like_starting : Bool := false
  to_val : Option String := none

/-- One iteration of the token loop of `suchbar.rs` `parse_term`. -/
def term_step (acc : TermAcc) : TermTok → TermAcc
  | .starts_with s =>
    if s = "*" then { acc with like_starting := true } else { acc with like_ending := true }
  | .ends_with s =>
    if s = "*" then { acc with like_ending := true } else { acc with like_starting := true }
  | .from_to v => { acc with to_val := v }
  | .value v => { acc with value := v.getD "" }
  | .date s => { acc with value := s }

/-- `suchbar.rs` `Suchbar::parse_term`: field fan-out and permission
filtering.  The permission backend `has_perm` is modelled as a
`String → Bool` predicate. -/
def Suchbar.parse_term (sb : Suchbar) (perm : String → Bool) (name : Option String)
    (comp_op : CompOp) (toks : List TermTok) : SQLTerm :=
  let acc := toks.foldl term_step {}
  .OR ((sb.choose_field_vec (name.getD "")).map (fun sf =>
    if !(perm sf.permission) then .DENIED
    else if acc.like_ending || acc.like_starting then
      let value :=
        match acc.like_starting, acc.like_ending with
        | true, false => "*" ++ acc.value
        | false, true => acc.value ++ "*"
        | _, _ => "*" ++ acc.value ++ "*"
      if comp_op = CompOp.NotEqual then .NOT (.LIKE sf value) else .LIKE sf value
    else if name.isNone then
      if sf.is_text || sb.options.like_in_numerics then .LIKE sf ("*" ++ acc.value ++ "*")
      else .VALUE sf .Equal .From acc.value
    else if acc.to_val.isSome then
      .AND [.VALUE sf .Gte .From acc.value, .VALUE sf .Lt .To (acc.to_val.getD "")]
    else if comp_op = CompOp.NotEqual then .NOT (.VALUE sf .Equal .From acc.value)
    else .VALUE sf comp_op .From acc.value))

/-- Modelled from the spec: the pairs inside a `field` rule, as tokens. -/
inductive FieldTok where
  | eq (s : String)
  | field_name (s : String)
  | invert
  | term (toks : List TermTok)

/-- The loop of `suchbar.rs` `Suchbar::parse_field`, carrying its three
mutable locals; the first `term` token returns immediately. -/
def Suchbar.parse_field_go (sb : Suchbar) (perm : String → Bool) :
    List FieldTok → String → Bool → CompOp → Except SuchError SQLTerm
  | [], name, _, _ => .error (.ParseError ("Field '" ++ name ++ "' not parsable."))
  | .eq s :: rest, name, nt, _ =>
    sb.parse_field_go perm rest name nt ((CompOp.from_str s).toOption.getD .Equal)
  | .field_name s :: rest, _, nt, comp => sb.parse_field_go perm rest s nt comp
  | .invert :: rest, name, nt, comp => sb.parse_field_go perm rest name (!nt) comp
  | .term toks :: _, name, nt, comp =>
    .ok (sb.parse_term perm (some name) (if nt then comp.notOp else comp) toks)

/-- `suchbar.rs` `Suchbar::parse_field`. -/
def Suchbar.parse_field (sb : Suchbar) (perm : String → Bool) (ftoks : List FieldTok)
    (nt : CompOp) : Except SuchError SQLTerm :=
  sb.parse_field_go perm ftoks "" (nt = CompOp.NotEqual) .Equal

/-- Modelled from the spec: the pairs inside an `expr` rule, as tokens;
nested parenthesized expressions appear as an `expr` token. -/
inductive ExprTok where
  | field (ftoks : List FieldTok)
  | or
  | and
  | invert
  | term (toks : List TermTok)
  | expr (sub : List ExprTok)

/-- The loop of `suchbar.rs` `Suchbar::parse_expr`, carrying the
accumulator, the `or` flag and the running comparator. -/
def Suchbar.parse_expr_go (sb : Suchbar) (perm : String → Bool) :
    List ExprTok → List SQLTerm → Bool → CompOp → Except SuchError SQLTerm
  | [], acc, orF, _ => .ok (if orF then .OR acc.reverse else .AND acc.reverse)
  | .field ftoks :: rest, acc, orF, comp =>
    match sb.parse_field perm ftoks comp with
    | .ok f => sb.parse_expr_go perm rest (f :: acc) orF comp
    | .error _ => sb.parse_expr_go perm rest acc orF comp
  | .or :: rest, acc, _, comp => sb.parse_expr_go perm rest acc true comp
  | .and :: rest, acc, _, comp => sb.parse_expr_go perm rest acc false comp
  | .invert :: rest, acc, orF, comp => sb.parse_expr_go perm rest acc orF comp.notOp
  | .term toks :: rest, acc, orF, comp =>
    sb.parse_expr_go perm rest (sb.parse_term perm none comp toks :: acc) orF comp
  | .expr sub :: rest, acc, orF, comp =>
    match sb.parse_expr_go perm sub [] false .Equal with
    | .ok s => sb.parse_expr_go perm rest (s :: acc) orF comp
    | .error e => .error e

/-- `suchbar.rs` `Suchbar::parse_expr`. -/
def Suchbar.parse_expr (sb : Suchbar) (perm : String → Bool) (toks : List ExprTok) :
    Except SuchError SQLTerm :=
  sb.parse_expr_go perm toks [] false .Equal

/-- Modelled from the spec: the pairs inside a `sort` rule, as tokens. -/
inductive SortTok where
  | down
  | field_name (s : String)

/-- The loop of `suchbar.rs` `Suchbar::parse_sort`, carrying the `desc`
flag. -/
def Suchbar.parse_sort_go (sb : Suchbar) : List SortTok → Bool → List SortField
  | [], _ => []
  | .down :: rest, _ => sb.parse_sort_go rest true
  | .field_name s :: rest, desc =>
    match sb.choose_field s with
    | some f => { desc := desc, field := f } :: sb.parse_sort_go rest false
    | none => sb.parse_sort_go rest desc

/-- `suchbar.rs` `Suchbar::parse_sort`. -/
def Suchbar.parse_sort (sb : Suchbar) (toks : List SortTok) : List SortField :=
  sb.parse_sort_go toks false

/-- `suchbar.rs` `WhereClause`. -/
structure WhereClause where
  sql_term : SQLTerm
  sort_field : List SortField

/-- Modelled from the spec: the top level of a parsed `query` rule,
`expr? (";" sort)? EOI`. -/
structure QueryTree where
  expr : Option (List ExprTok)
  sort : Option (List SortTok)

/-- `suchbar.rs` `Suchbar::exec`: `sql_term` defaults to `AND []`,
`sort_field` to `[]`; a failing `parse_expr` propagates. -/
def Suchbar.exec (sb : Suchbar) (perm : String → Bool) (q : QueryTree) :
    Except SuchError WhereClause :=
  match (match q.expr with
         | some e => sb.parse_expr perm e
         | none => .ok (.AND [])) with
  | .ok t =>
    .ok { sql_term := t,
          sort_field := match q.sort with
                        | some s => sb.parse_sort s
                        | none => [] }
  | .error e => .error e

/-- `suchbar.rs` `WhereClause::where_clause`. -/
def WhereClause.where_clause (env : DateEnv) (w : WhereClause) : Except SuchError String :=
  w.sql_term.to_sql env

/-- `suchbar.rs` `WhereClause::order_by`. -/
def WhereClause.order_by (w : WhereClause) : String :=
  String.intercalate ", " (w.sort_field.map SortField.to_sql)

/-- `suchbar.rs` `WhereClause::to_sql`. -/
def WhereClause.to_sql (env : DateEnv) (w : WhereClause) (concatenate : String) : String :=
  let whr := (w.where_clause env).toOption.getD ""
  let whr := if whr.isEmpty then whr else " " ++ concatenate ++ " " ++ whr
  let sort := if w.sort_field.isEmpty then "" else " ORDER BY " ++ w.order_by
  whr ++ sort

/-- Schema fixture mirroring the `suchbar.rs` test schema (minus `DATE`). -/
def artikelnummer : DbField :=
  ⟨"artikelnummer", .VARCHAR 18, "READ_OFFER", ["art", "artnr", "artikelnummer", "artikelnr", "ano"]⟩

/-- Test schema field `positionstext`. -/
def positionstext : DbField :=
  ⟨"positionstext", .TEXT, "READ_OFFER", ["beschreibung", "desc", "description", "ptext"]⟩

/-- Test schema field `price`. -/
def priceField : DbField :=
  ⟨"price", .NUMERIC 12 2, "READ_OFFER", ["preis", "price", "p"]⟩

/-- Test schema field `age`, guarded by a separate permission token. -/
def ageField : DbField :=
  ⟨"age", .INTEGER 0 150, "ACCESS_PRIVATE", ["alter", "age"]⟩

/-- Test schema field `aktiv`, the `BOOL` case. -/
def aktivField : DbField :=
  ⟨"aktiv", .BOOL, "READ_OFFER", ["akt", "aktiv"]⟩

/-- The test `Suchbar`. -/
def testSuchbar : Suchbar :=
  ⟨[artikelnummer, positionstext, priceField, ageField, aktivField], ⟨false⟩⟩

/-- The `ADMIN` fixture: holds both permission tokens. -/
def adminPerm : String → Bool :=
  fun p => p == "ACCESS_PRIVATE" || p == "READ_OFFER"

/-- The `USER` fixture: lacks `ACCESS_PRIVATE`. -/
def userPerm : String → Bool :=
  fun p => p == "ANYTHING_ELSE" || p == "READ_OFFER"

/-- A date helper that resolves nothing, usable because no fixture field
is a `DATE`. -/
def noDates : DateEnv :=
  ⟨fun _ _ => .error (.ParseError "no date helper")⟩

/-- `pre` is a leading run of `l`. -/
def isPrefixL : List Char → List Char → Bool
  | [], _ => true
  | _ :: _, [] => false
  | a :: as, b :: bs => a = b && isPrefixL as bs

/-- `needle` occurs somewhere in `l`. -/
def occursInL (needle : List Char) : List Char → Bool
  | [] => needle.isEmpty
  | c :: rest => isPrefixL needle (c :: rest) || occursInL needle rest

/-- `needle` occurs in `hay` as a substring. -/
def occursIn (needle hay : String) : Bool :=
  occursInL needle.data hay.data

theorem CompOp.notOp_notOp (c : CompOp) : c.notOp.notOp = c := by
  cases c <;> rfl

theorem to_sql_ok_eq_filterMap (env : DateEnv) (l : List SQLTerm) :
    to_sql_ok env l = l.filterMap (fun t => (t.to_sql env).toOption) := by
  induction l with
  | nil => rfl
  | cons t rest ih =>
    simp only [to_sql_ok, List.filterMap_cons]
    cases t.to_sql env <;> simp [Except.toOption, ih]

theorem escapeList_append (l1 l2 : List Char) :
    escapeList (l1 ++ l2) = escapeList l1 ++ escapeList l2 := by
  induction l1 with
  | nil => simp [escapeList]
  | cons c cs ih => simp [escapeList, ih, String.append_assoc]

theorem escape_append (a b : String) : escape (a ++ b) = escape a ++ escape b := by
  simp [escape, String.data_append, escapeList_append]

/-- C2: `sql_safe` escapes character by character, before the per-type
check, mapping `?` to `_`, `*` to `%`, a single quote to two single
quotes, `_` to `\_`, `%` to `\%`, and leaving every other character
unchanged. -/
theorem sql_safe_escapes_char_by_char (t : DbType) (val : String) (c : Char)
    (h1 : c ≠ '?') (h2 : c ≠ '*') (h3 : c ≠ '\'') (h4 : c ≠ '_') (h5 : c ≠ '%') :
    t.sql_safe val = t.checker (escape val)
    ∧ escape val = escapeList val.data
    ∧ escaper '?' = "_"
    ∧ escaper '*' = "%"
    ∧ escaper '\'' = "''"
    ∧ escaper '_' = "\\_"
    ∧ escaper '%' = "\\%"
    ∧ escaper c = String.singleton c := by
  refine ⟨rfl, rfl, rfl, rfl, rfl, rfl, rfl, ?_⟩
  simp [escaper, h1, h2, h3, h4, h5]

theorem sql_safe_escapes_char_by_char_witness :
    DbType.TEXT.sql_safe "a" = DbType.TEXT.checker (escape "a")
    ∧ escape "a" = escapeList "a".data
    ∧ escaper '?' = "_"
    ∧ escaper '*' = "%"
    ∧ escaper '\'' = "''"
    ∧ escaper '_' = "\\_"
    ∧ escaper '%' = "\\%"
    ∧ escaper 'a' = String.singleton 'a' :=
  sql_safe_escapes_char_by_char DbType.TEXT "a" 'a'
    (by decide) (by decide) (by decide) (by decide) (by decide)

/-- C3: AND/OR emission drops children whose own emission fails; zero
survivors yield `ParseError "Empty SQLTerm!"`, exactly one survivor is
returned verbatim, several are joined with the combinator inside one
pair of parentheses; a `DENIED` leaf is such a failing child. -/
theorem combinator_emission_filters_children (env : DateEnv) (vec : List SQLTerm) :
    ((SQLTerm.AND vec).to_sql env =
      match vec.filterMap (fun t => (t.to_sql env).toOption) with
      | [] => .error (.ParseError "Empty SQLTerm!")
      | [s] => .ok s
      | l => .ok ("( " ++ String.intercalate " AND " l ++ " )"))
    ∧ ((SQLTerm.OR vec).to_sql env =
      match vec.filterMap (fun t => (t.to_sql env).toOption) with
      | [] => .error (.ParseError "Empty SQLTerm!")
      | [s] => .ok s
      | l => .ok ("( " ++ String.intercalate " OR " l ++ " )"))
    ∧ SQLTerm.DENIED.to_sql env = .error .Denied := by
  refine ⟨?_, ?_, rfl⟩ <;>
  · simp only [SQLTerm.to_sql, to_sql_ok_eq_filterMap]
    generalize List.filterMap (fun t => (SQLTerm.to_sql env t).toOption) vec = L
    rcases L with _ | ⟨a, _ | ⟨b, l⟩⟩ <;> rfl

/-- C4 (amended): the `VARCHAR(n)` check on the escaped value succeeds,
returning it unchanged, exactly when its length in UTF-8 bytes (Rust
`String::len`) is at most `n`; otherwise it is a `ParseError` naming the
value.  The spec's "code points" is refuted by `varchar_length_is_bytes`. -/
theorem varchar_checker_counts_utf8_bytes (n : Nat) (val : String) :
    (DbType.VARCHAR n).sql_safe val =
      (if rustLen (escape val) ≤ n then .ok (escape val)
       else .error (.ParseError ("Value: '" ++ escape val ++ "' to long"))) := by
  simp only [DbType.sql_safe, DbType.checker]
  split <;> split <;> first | rfl | omega

/-- C4 counterexample: `ä` has code-point length 1, yet `VARCHAR(1)`
rejects it, because the check counts UTF-8 bytes (2 for `ä`). -/
theorem varchar_length_is_bytes :
    (escape "ä").length = 1
    ∧ (DbType.VARCHAR 1).sql_safe "ä" = .error (.ParseError "Value: 'ä' to long") :=
  ⟨rfl, rfl⟩

/-- C7: for a `BOOL` field, `try_sql_eq` emits the bare column name when
the coerced value equals `cmp == Equal` and `name=false` otherwise; it
never emits anything else, and a non-boolean token is a `ParseError`. -/
theorem bool_eq_collapses (env : DateEnv) (f : DbField) (cmp : CompOp)
    (val val2 : String) (d : Direction) (b : Bool) (e : SuchError) (s : String)
    (hb : f.db_type = .BOOL)
    (hv : try_bool val = .ok b)
    (he : try_bool val2 = .error e)
    (hs : f.try_sql_eq env cmp val d = .ok s) :
    f.try_sql_eq env cmp val d =
      .ok (f.db_name ++ (if b == (cmp == CompOp.Equal) then "" else "=false"))
    ∧ f.try_sql_eq env cmp val2 d = .error e
    ∧ (s = f.db_name ∨ s = f.db_name ++ "=false") := by
  have h1 : f.try_sql_eq env cmp val d =
      .ok (f.db_name ++ (if b == (cmp == CompOp.Equal) then "" else "=false")) := by
    simp only [DbField.try_sql_eq, hb, hv]
  refine ⟨h1, ?_, ?_⟩
  · simp only [DbField.try_sql_eq, hb, he]
  · rw [h1] at hs
    injection hs with h2
    subst h2
    cases hB : b == (cmp == CompOp.Equal) <;> simp [hB]

theorem bool_eq_collapses_witness :
    aktivField.try_sql_eq noDates CompOp.Equal "true" Direction.From =
      .ok (aktivField.db_name ++ (if true == (CompOp.Equal == CompOp.Equal) then "" else "=false"))
    ∧ aktivField.try_sql_eq noDates CompOp.Equal "maybe" Direction.From =
      .error (.ParseError "No boolean value: 'maybe'")
    ∧ ("aktiv" = aktivField.db_name ∨ "aktiv" = aktivField.db_name ++ "=false") :=
  bool_eq_collapses noDates aktivField CompOp.Equal "true" "maybe" Direction.From
    true (.ParseError "No boolean value: 'maybe'") "aktiv" rfl rfl rfl rfl

/-- C8: two `invert` occurrences cancel in the walker, so the doubly
negated expression yields the same result (hence the same success and
the same emitted SQL) as the original; and the emitter collapses
`NOT(NOT(t))` to `t` for every IR term `t`. -/
theorem double_negation_cancels (sb : Suchbar) (perm : String → Bool) (env : DateEnv)
    (rest : List ExprTok) (t : SQLTerm) :
    sb.parse_expr perm (.invert :: .invert :: rest) = sb.parse_expr perm rest
    ∧ (SQLTerm.NOT (.NOT t)).to_sql env = t.to_sql env := by
  constructor
  · simp [Suchbar.parse_expr, Suchbar.parse_expr_go, CompOp.notOp]
  · simp [SQLTerm.to_sql]

/-- C9: with no field qualifier and no anchor or wildcard marker, the
resolver ignores the comparator, so a preceding negation changes
nothing: `!w` and `w` yield identical IR. -/
theorem bare_term_ignores_negation (sb : Suchbar) (perm : String → Bool)
    (cmp1 cmp2 : CompOp) (v : Option String) :
    sb.parse_term perm none cmp1 [.value v] = sb.parse_term perm none cmp2 [.value v]
    ∧ sb.parse_expr perm [.invert, .term [.value v]]
      = sb.parse_expr perm [.term [.value v]] := by
  have key : ∀ c1 c2 : CompOp,
      sb.parse_term perm none c1 [.value v] = sb.parse_term perm none c2 [.value v] := by
    intro c1 c2
    simp only [Suchbar.parse_term]
    congr 1
  refine ⟨key cmp1 cmp2, ?_⟩
  simp only [Suchbar.parse_expr, Suchbar.parse_expr_go]
  rw [key CompOp.Equal.notOp CompOp.Equal]

/-- C10: a sort item naming no alias is skipped, and the `desc` flag set
by `^` is only cleared after a recognized field, so a `^` before an
unrecognized name marks the next recognized field as descending. -/
theorem sort_skips_unknown_and_carries_desc (sb : Suchbar) (u k : String) (f : DbField)
    (rest : List SortTok) (d : Bool)
    (hu : sb.choose_field u = none)
    (hk : sb.choose_field k = some f) :
    sb.parse_sort_go (.field_name u :: rest) d = sb.parse_sort_go rest d
    ∧ sb.parse_sort (.down :: .field_name u :: .field_name k :: rest)
      = { desc := true, field := f } :: sb.parse_sort_go rest false := by
  constructor
  · simp [Suchbar.parse_sort_go, hu]
  · simp [Suchbar.parse_sort, Suchbar.parse_sort_go, hu, hk]

theorem sort_skips_unknown_and_carries_desc_witness :
    testSuchbar.parse_sort_go [.field_name "zzz"] false = testSuchbar.parse_sort_go [] false
    ∧ testSuchbar.parse_sort [.down, .field_name "zzz", .field_name "age"]
      = { desc := true, field := ageField } :: testSuchbar.parse_sort_go [] false :=
  sort_skips_unknown_and_carries_desc testSuchbar "zzz" "age" ageField [] false rfl rfl

theorem strAppend_assoc (a b c : String) : a ++ b ++ c = a ++ (b ++ c) := by
  apply String.ext
  simp [String.data_append]

/-- C5: on a permitted field, a leading `^` anchors to the beginning
(glob `value*`, emitted as `LIKE 'value%'`), a leading `*` is a wildcard
prefix (glob `*value`, emitted as `LIKE '%value'`), a trailing `$`
anchors the end (glob `*value`), a trailing `*` is a wildcard suffix
(glob `value*`); with comparator `NotEqual` the `LIKE` node is wrapped
in `NOT`. -/
theorem anchor_and_wildcard_markers (sb : Suchbar) (perm : String → Bool) (env : DateEnv)
    (n : String) (sf : DbField) (v : String) (cmp : CompOp)
    (h1 : sb.choose_field n = some sf)
    (h2 : perm sf.permission = true)
    (h3 : sf.db_type = .TEXT)
    (h4 : escape v = v) :
    sb.parse_term perm (some n) cmp [.starts_with "^", .value (some v)]
      = .OR [if cmp = CompOp.NotEqual then .NOT (.LIKE sf (v ++ "*")) else .LIKE sf (v ++ "*")]
    ∧ sb.parse_term perm (some n) cmp [.starts_with "*", .value (some v)]
      = .OR [if cmp = CompOp.NotEqual then .NOT (.LIKE sf ("*" ++ v)) else .LIKE sf ("*" ++ v)]
    ∧ sb.parse_term perm (some n) cmp [.value (some v), .ends_with "$"]
      = .OR [if cmp = CompOp.NotEqual then .NOT (.LIKE sf ("*" ++ v)) else .LIKE sf ("*" ++ v)]
    ∧ sb.parse_term perm (some n) cmp [.value (some v), .ends_with "*"]
      = .OR [if cmp = CompOp.NotEqual then .NOT (.LIKE sf (v ++ "*")) else .LIKE sf (v ++ "*")]
    ∧ (SQLTerm.LIKE sf (v ++ "*")).to_sql env
      = .ok (sf.db_name ++ " LIKE '" ++ v ++ "%" ++ "'")
    ∧ (SQLTerm.LIKE sf ("*" ++ v)).to_sql env
      = .ok (sf.db_name ++ " LIKE '" ++ "%" ++ v ++ "'") := by
  have e1 : escape (v ++ "*") = v ++ "%" := by
    rw [escape_append, h4]
    rfl
  have e2 : escape ("*" ++ v) = "%" ++ v := by
    rw [escape_append, h4]
    rfl
  refine ⟨?_, ?_, ?_, ?_, ?_, ?_⟩
  · simp [Suchbar.parse_term, Suchbar.choose_field_vec, h1, h2, term_step]
  · simp [Suchbar.parse_term, Suchbar.choose_field_vec, h1, h2, term_step]
  · simp [Suchbar.parse_term, Suchbar.choose_field_vec, h1, h2, term_step]
  · simp [Suchbar.parse_term, Suchbar.choose_field_vec, h1, h2, term_step]
  · simp only [SQLTerm.to_sql, DbField.try_sql_like, h3, DbType.sql_safe, DbType.checker, e1]
    simp only [strAppend_assoc]
  · simp only [SQLTerm.to_sql, DbField.try_sql_like, h3, DbType.sql_safe, DbType.checker, e2]
    simp only [strAppend_assoc]

theorem anchor_and_wildcard_markers_witness :
    testSuchbar.parse_term adminPerm (some "ptext") CompOp.NotEqual
        [.starts_with "^", .value (some "AAA")]
      = .OR [if CompOp.NotEqual = CompOp.NotEqual then .NOT (.LIKE positionstext ("AAA" ++ "*"))
             else .LIKE positionstext ("AAA" ++ "*")]
    ∧ testSuchbar.parse_term adminPerm (some "ptext") CompOp.NotEqual
        [.starts_with "*", .value (some "AAA")]
      = .OR [if CompOp.NotEqual = CompOp.NotEqual then .NOT (.LIKE positionstext ("*" ++ "AAA"))
             else .LIKE positionstext ("*" ++ "AAA")]
    ∧ testSuchbar.parse_term adminPerm (some "ptext") CompOp.NotEqual
        [.value (some "AAA"), .ends_with "$"]
      = .OR [if CompOp.NotEqual = CompOp.NotEqual then .NOT (.LIKE positionstext ("*" ++ "AAA"))
             else .LIKE positionstext ("*" ++ "AAA")]
    ∧ testSuchbar.parse_term adminPerm (some "ptext") CompOp.NotEqual
        [.value (some "AAA"), .ends_with "*"]
      = .OR [if CompOp.NotEqual = CompOp.NotEqual then .NOT (.LIKE positionstext ("AAA" ++ "*"))
             else .LIKE positionstext ("AAA" ++ "*")]
    ∧ (SQLTerm.LIKE positionstext ("AAA" ++ "*")).to_sql noDates
      = .ok (positionstext.db_name ++ " LIKE '" ++ "AAA" ++ "%" ++ "'")
    ∧ (SQLTerm.LIKE positionstext ("*" ++ "AAA")).to_sql noDates
      = .ok (positionstext.db_name ++ " LIKE '" ++ "%" ++ "AAA" ++ "'") :=
  anchor_and_wildcard_markers testSuchbar adminPerm noDates "ptext" positionstext "AAA"
    CompOp.NotEqual rfl rfl rfl rfl

/-- C6: `field=a-b` on a single permitted field resolves to the half-open
range `AND [VALUE(f, Gte, From, a), VALUE(f, Lt, To, b)]`, and when both
values coerce it emits exactly `( field>=a AND field<b )`. -/
theorem range_emits_half_open (sb : Suchbar) (perm : String → Bool) (env : DateEnv)
    (n : String) (sf : DbField) (a b ca cb : String) (mn mx : Nat)
    (h1 : sb.choose_field n = some sf)
    (h2 : perm sf.permission = true)
    (h3 : sf.db_type = .INTEGER mn mx)
    (h4 : sf.db_type.sql_safe a = .ok ca)
    (h5 : sf.db_type.sql_safe b = .ok cb)
    (h6 : containsChar a '*' = false)
    (h7 : containsChar b '*' = false) :
    sb.parse_term perm (some n) .Equal [.value (some a), .from_to (some b)]
      = .OR [.AND [.VALUE sf .Gte .From a, .VALUE sf .Lt .To b]]
    ∧ (SQLTerm.OR [.AND [.VALUE sf .Gte .From a, .VALUE sf .Lt .To b]]).to_sql env
      = .ok ("( " ++ sf.db_name ++ ">=" ++ ca ++ " AND " ++ sf.db_name ++ "<" ++ cb ++ " )") := by
  constructor
  · simp [Suchbar.parse_term, Suchbar.choose_field_vec, h1, h2, term_step]
  · have ea : val_sql env sf .Gte a .From = .ok (sf.db_name ++ ">=" ++ ca) := by
      simp only [val_sql, h6, Bool.false_eq_true, if_false, DbField.try_sql_eq, h3]
      rw [show DbType.sql_safe (.INTEGER mn mx) a = .ok ca from h3 ▸ h4]
      rfl
    have eb : val_sql env sf .Lt b .To = .ok (sf.db_name ++ "<" ++ cb) := by
      simp only [val_sql, h7, Bool.false_eq_true, if_false, DbField.try_sql_eq, h3]
      rw [show DbType.sql_safe (.INTEGER mn mx) b = .ok cb from h3 ▸ h5]
      rfl
    simp only [SQLTerm.to_sql, to_sql_ok, ea, eb, explode_sql, String.intercalate,
      String.intercalate.go]
    simp only [strAppend_assoc]

theorem range_emits_half_open_witness :
    testSuchbar.parse_term adminPerm (some "age") .Equal [.value (some "10"), .from_to (some "19")]
      = .OR [.AND [.VALUE ageField .Gte .From "10", .VALUE ageField .Lt .To "19"]]
    ∧ (SQLTerm.OR [.AND [.VALUE ageField .Gte .From "10", .VALUE ageField .Lt .To "19"]]).to_sql
        noDates
      = .ok ("( " ++ ageField.db_name ++ ">=" ++ "10" ++ " AND " ++ ageField.db_name ++ "<"
          ++ "19" ++ " )") :=
  range_emits_half_open testSuchbar adminPerm noDates "age" ageField "10" "19" "10" "19" 0 150
    rfl rfl rfl rfl rfl rfl rfl

theorem mem_leafFieldsList {f : DbField} :
    ∀ {l : List SQLTerm}, f ∈ leafFieldsList l → ∃ t ∈ l, f ∈ t.leafFields := by
  intro l
  induction l with
  | nil => intro h; simp [leafFieldsList] at h
  | cons t rest ih =>
    intro h
    simp only [leafFieldsList, List.mem_append] at h
    rcases h with h | h
    · exact ⟨t, List.mem_cons_self t rest, h⟩
    · obtain ⟨s, hs, hfs⟩ := ih h
      exact ⟨s, List.mem_cons_of_mem t hs, hfs⟩

theorem parse_term_leaf_perm (sb : Suchbar) (perm : String → Bool) (name : Option String)
    (cmp : CompOp) (toks : List TermTok) (f : DbField)
    (hf : f ∈ (sb.parse_term perm name cmp toks).leafFields) :
    perm f.permission = true := by
  simp only [Suchbar.parse_term, SQLTerm.leafFields] at hf
  obtain ⟨t, ht, hft⟩ := mem_leafFieldsList hf
  obtain ⟨sf, _, rfl⟩ := List.mem_map.mp ht
  cases h : perm sf.permission with
  | false =>
    simp only [h, Bool.not_false, if_pos] at hft
    simp [SQLTerm.leafFields] at hft
  | true =>
    have hfs : f = sf := by
      simp only [h, Bool.not_true, Bool.false_eq_true, if_false] at hft
      split at hft
      · split at hft <;> simp_all [SQLTerm.leafFields, leafFieldsList]
      · split at hft
        · split at hft <;> simp_all [SQLTerm.leafFields, leafFieldsList]
        · split at hft
          · simp_all [SQLTerm.leafFields, leafFieldsList]
          · split at hft <;> simp_all [SQLTerm.leafFields, leafFieldsList]
    rw [hfs]
    exact h

theorem parse_field_go_leaf_perm (sb : Suchbar) (perm : String → Bool) :
    ∀ (ftoks : List FieldTok) (name : String) (nt : Bool) (comp : CompOp) (t : SQLTerm)
      (f : DbField),
      sb.parse_field_go perm ftoks name nt comp = .ok t →
      f ∈ t.leafFields → perm f.permission = true := by
  intro ftoks
  induction ftoks with
  | nil =>
    intro name nt comp t f h _
    simp [Suchbar.parse_field_go] at h
  | cons tok rest ih =>
    intro name nt comp t f h hf
    cases tok with
    | eq s =>
      simp only [Suchbar.parse_field_go] at h
      exact ih _ _ _ _ _ h hf
    | field_name s =>
      simp only [Suchbar.parse_field_go] at h
      exact ih _ _ _ _ _ h hf
    | invert =>
      simp only [Suchbar.parse_field_go] at h
      exact ih _ _ _ _ _ h hf
    | term toks =>
      simp only [Suchbar.parse_field_go] at h
      injection h with h
      subst h
      exact parse_term_leaf_perm sb perm _ _ _ f hf

theorem parse_expr_go_leaf_perm (sb : Suchbar) (perm : String → Bool) :
    ∀ (toks : List ExprTok) (acc : List SQLTerm) (orF : Bool) (comp : CompOp),
      ∀ (t : SQLTerm),
        (∀ s ∈ acc, ∀ f ∈ s.leafFields, perm f.permission = true) →
        sb.parse_expr_go perm toks acc orF comp = .ok t →
        ∀ f ∈ t.leafFields, perm f.permission = true := by
  intro toks acc orF comp
  induction toks, acc, orF, comp using Suchbar.parse_expr_go.induct sb perm with
  | case1 acc orF comp =>
    intro t hacc heq f hf
    simp only [Suchbar.parse_expr_go] at heq
    injection heq with heq
    subst heq
    cases orF <;>
    · simp only [SQLTerm.leafFields] at hf
      obtain ⟨s, hs, hfs⟩ := mem_leafFieldsList hf
      exact hacc s (List.mem_reverse.mp hs) f hfs
  | case2 ftoks rest acc orF comp g hg ih =>
    intro t hacc heq f hf
    simp only [Suchbar.parse_expr_go, hg] at heq
    refine ih t ?_ heq f hf
    intro s hs f2 hf2
    rcases List.mem_cons.mp hs with rfl | hs2
    · exact parse_field_go_leaf_perm sb perm _ _ _ _ _ f2 hg hf2
    · exact hacc s hs2 f2 hf2
  | case3 ftoks rest acc orF comp e he ih =>
    intro t hacc heq f hf
    simp only [Suchbar.parse_expr_go, he] at heq
    exact ih t hacc heq f hf
  | case4 rest acc orF comp ih =>
    intro t hacc heq f hf
    simp only [Suchbar.parse_expr_go] at heq
    exact ih t hacc heq f hf
  | case5 rest acc orF comp ih =>
    intro t hacc heq f hf
    simp only [Suchbar.parse_expr_go] at heq
    exact ih t hacc heq f hf
  | case6 rest acc orF comp ih =>
    intro t hacc heq f hf
    simp only [Suchbar.parse_expr_go] at heq
    exact ih t hacc heq f hf
  | case7 ttoks rest acc orF comp ih =>
    intro t hacc heq f hf
    simp only [Suchbar.parse_expr_go] at heq
    refine ih t ?_ heq f hf
    intro s hs f2 hf2
    rcases List.mem_cons.mp hs with rfl | hs2
    · exact parse_term_leaf_perm sb perm _ _ _ f2 hf2
    · exact hacc s hs2 f2 hf2
  | case8 sub rest acc orF comp g hg ihSub ih =>
    intro t hacc heq f hf
    simp only [Suchbar.parse_expr_go, hg] at heq
    refine ih t ?_ heq f hf
    intro s hs f2 hf2
    rcases List.mem_cons.mp hs with rfl | hs2
    · exact ihSub s (by simp) hg f2 hf2
    · exact hacc s hs2 f2 hf2
  | case9 sub rest acc orF comp e he ihSub =>
    intro t hacc heq f hf
    simp only [Suchbar.parse_expr_go, he] at heq
    cases heq

/-- C1 (amended): every `VALUE`/`LIKE` leaf of the `WhereClause` a
successful `exec` returns references a field the caller is permitted to
read — denied fields become `DENIED` at resolve time, so the where
clause never emits a predicate on a forbidden column.  The sort list,
however, is not permission-filtered (see
`sort_clause_leaks_denied_field`), so a forbidden field's `sql_name` can
appear in the `ORDER BY` part of `to_sql`. -/
theorem resolve_time_permission_filter (sb : Suchbar) (perm : String → Bool) (q : QueryTree)
    (w : WhereClause) (f : DbField)
    (hw : sb.exec perm q = .ok w)
    (hf : f ∈ w.sql_term.leafFields) :
    perm f.permission = true := by
  obtain ⟨qe, qs⟩ := q
  cases qe with
  | none =>
    simp only [Suchbar.exec] at hw
    injection hw with hw
    rw [← hw] at hf
    simp [SQLTerm.leafFields, leafFieldsList] at hf
  | some e =>
    simp only [Suchbar.exec] at hw
    cases he : sb.parse_expr perm e with
    | error er =>
      rw [he] at hw
      simp at hw
    | ok t =>
      rw [he] at hw
      injection hw with hw
      rw [← hw] at hf
      exact parse_expr_go_leaf_perm sb perm e [] false .Equal t
        (by intro s hs; cases hs) he f hf

theorem resolve_time_permission_filter_witness :
    userPerm positionstext.permission = true :=
  resolve_time_permission_filter testSuchbar userPerm
    ⟨some [.term [.value (some "x")]], none⟩
    ⟨.AND [.OR [.LIKE artikelnummer "*x*", .LIKE positionstext "*x*",
      .VALUE priceField .Equal .From "x", .DENIED, .VALUE aktivField .Equal .From "x"]], []⟩
    positionstext
    (by
      simp [Suchbar.exec, Suchbar.parse_expr, Suchbar.parse_expr_go, Suchbar.parse_term,
        Suchbar.choose_field_vec, Suchbar.choose_field, testSuchbar, term_step]
      rfl)
    (by decide)

/-- C1 counterexample: `parse_sort` performs no permission check, so for
the query `;age` a caller lacking `ACCESS_PRIVATE` still gets the denied
field's `sql_name` `age` in the emitted `ORDER BY` — the claim's "never
appears in the output" is false for the sort part. -/
theorem sort_clause_leaks_denied_field :
    userPerm ageField.permission = false
    ∧ (match testSuchbar.exec userPerm ⟨none, some [.field_name "age"]⟩ with
       | .ok w => w.to_sql noDates ""
       | .error _ => "") = " ORDER BY age"
    ∧ occursIn ageField.db_name " ORDER BY age" = true :=
  ⟨rfl, rfl, rfl⟩
